import Mathlib

/-!
Shallow embedding of the Tado X Home Assistant integration
(`custom_components/tado_x`): the config flow (`config_flow.py`), the entry
setup (`__init__.py`) and the number platform (`number.py`).

Asynchronous calls into the vendor API and into the Home Assistant host are
modelled by an explicit environment that supplies each call's outcome, and by
an effect trace listing the calls the code performs, in order.  Python
exceptions become explicit `Except` results; `None`-able values become
`Option`.  Python `float` configuration values are carried opaquely as `Rat`
(no arithmetic is ever performed on them).
-/

namespace TadoX

/-- Exception classes raised by the code under `custom_components/tado_x`:
`TadoXAuthError` and `TadoXApiError` from `api.py`, `aiohttp.ClientError`,
and a `TypeError` for attribute/subscript access on `None`.  The modules only
ever catch a listed class exactly; an uncaught exception propagates. -/
inductive PyExc where
  | tadoAuthError
  | tadoApiError
  | clientError
  | typeError
deriving Repr, DecidableEq

/-- Token-related fields of a `TadoXApi` object: `access_token`,
`refresh_token`, and `token_expiry` (kept in its `isoformat()` string form,
`none` when the Python value is `None`). -/
structure ApiTokens where
  accessToken : Option String
  refreshToken : Option String
  tokenExpiry : Option String
deriving Repr, DecidableEq

/-- One home record as returned by `TadoXApi.get_homes`: the `"id"` and
`"name"` keys that `config_flow.py` reads. -/
structure Home where
  id : Nat
  name : String
deriving Repr, DecidableEq

/-- The data dictionary of a config entry.  `config_flow.py` always writes
all nine keys; `__init__.py` reads most of them through `.get`, so every key
that can be absent or `None` is an `Option`.  `CONF_HOME_ID` is accessed with
`entry.data[CONF_HOME_ID]` and is therefore mandatory. -/
structure EntryData where
  homeId : Nat
  homeName : Option String
  accessToken : Option String
  refreshToken : Option String
  tokenExpiry : Option String
  scanInterval : Option Nat
  geofencingEnabled : Option Bool
  minTemp : Option Rat
  maxTemp : Option Rat
deriving Repr, DecidableEq

/-- An already-registered config entry as seen through
`self._async_current_entries()`: its `unique_id` and its data. -/
structure ExistingEntry where
  uniqueId : Option String
  data : EntryData
deriving Repr, DecidableEq

/-- The mutable fields of `TadoXConfigFlow` set in `__init__`:
`_api`, `_device_code`, `_user_code`, `_verification_uri`, `_homes`,
`_selected_home`.  (`_poll_task` is never assigned anywhere else in the file
and is omitted.) -/
structure FlowState where
  api : Option ApiTokens
  deviceCode : Option String
  userCode : Option String
  verificationUri : Option String
  homes : List Home
  selectedHome : Option Home
deriving Repr, DecidableEq

/-- Result of one config-flow step: `async_show_form` (step id and the
`errors` dictionary), `async_create_entry` (title, the created entry's
`unique_id`, and data), `async_abort`, `async_update_reload_and_abort`
(the updated entry data), or an uncaught Python exception. -/
inductive StepResult where
  | showForm (stepId : String) (errors : List (String × String))
  | createEntry (title : String) (uniqueId : Option String) (data : EntryData)
  | abort (reason : String)
  | updateReloadAndAbort (data : EntryData)
  | raised (e : PyExc)
deriving Repr, DecidableEq

/-- Vendor-API calls a config-flow step performs, in order. -/
inductive FlowEffect where
  | startDeviceAuth
  | pollForToken (deviceCode : String) (interval : Nat) (timeout : Nat)
  | getHomes
deriving Repr, DecidableEq

/-- Modelled from the spec: `const.py` is not under `src/` and neither the
spec nor the code under `src/` fixes the numeric value of
`DEFAULT_SCAN_INTERVAL`; the value below is an arbitrary placeholder and no
theorem depends on it. -/
def DEFAULT_SCAN_INTERVAL : Nat := 300

/-- Modelled from the spec: `const.py` is not under `src/`; arbitrary
placeholder value for `MIN_TEMP`, no theorem depends on it. -/
def MIN_TEMP : Rat := 5

/-- Modelled from the spec: `const.py` is not under `src/`; arbitrary
placeholder value for `MAX_TEMP`, no theorem depends on it. -/
def MAX_TEMP : Rat := 30

/-- The `unique_id` string `_create_entry` compares against:
`f"tado_x_{home['id']}"`. -/
def homeUniqueId (home : Home) : String := "tado_x_" ++ toString home.id

/-- `TadoXConfigFlow._create_entry` (config_flow.py lines 195-226).
If `self._api` is `None` the flow aborts with reason `"unknown"`; if some
current entry's `unique_id` equals `f"tado_x_{home['id']}"` it aborts with
`"already_configured"`; otherwise it calls `async_create_entry`.  The flow
never calls `async_set_unique_id`, so per the Home Assistant config-entries
framework the created entry's `unique_id` is `None`. -/
def _create_entry (api : Option ApiTokens) (entries : List ExistingEntry)
    (home : Home) (scanInterval : Nat) (geofencingEnabled : Bool)
    (minTemp maxTemp : Rat) : StepResult :=
  match api with
  | none => .abort "unknown"
  | some a =>
    if entries.any (fun en => en.uniqueId == some (homeUniqueId home)) then
      .abort "already_configured"
    else
      .createEntry home.name none
        { homeId := home.id
          homeName := some home.name
          accessToken := a.accessToken
          refreshToken := a.refreshToken
          tokenExpiry := a.tokenExpiry
          scanInterval := some scanInterval
          geofencingEnabled := some geofencingEnabled
          minTemp := some minTemp
          maxTemp := some maxTemp }

/-- User input to the configure step; each key is read with `.get` and a
default, so each is optional. -/
structure ConfigureInput where
  scanInterval : Option Nat
  geofencingEnabled : Option Bool
  minTemp : Option Rat
  maxTemp : Option Rat
deriving Repr, DecidableEq

/-- `TadoXConfigFlow.async_step_configure` (config_flow.py lines 151-193).
With input it reads the four options (with defaults) and calls
`_create_entry(self._selected_home, ...)`; when `_selected_home` is `None`
the subscript `home["id"]` inside `_create_entry` raises.  With no input it
shows the configure form. -/
def async_step_configure (entries : List ExistingEntry) (st : FlowState)
    (userInput : Option ConfigureInput) : FlowState × StepResult :=
  match userInput with
  | none => (st, .showForm "configure" [])
  | some ui =>
    let si := ui.scanInterval.getD DEFAULT_SCAN_INTERVAL
    let g := ui.geofencingEnabled.getD false
    let mn := ui.minTemp.getD MIN_TEMP
    let mx := ui.maxTemp.getD MAX_TEMP
    match st.selectedHome with
    | some h => (st, _create_entry st.api entries h si g mn mx)
    | none => (st, .raised .typeError)

/-- `TadoXConfigFlow.async_step_select_home` (config_flow.py lines 129-149).
With input, the first home in `self._homes` whose `id` matches becomes
`_selected_home` and the flow proceeds to the configure step (shown with no
input); when no home matches, or with no input, the selection form is
shown. -/
def async_step_select_home (entries : List ExistingEntry) (st : FlowState)
    (userInput : Option Nat) : FlowState × StepResult :=
  match userInput with
  | none => (st, .showForm "select_home" [])
  | some hid =>
    match st.homes.find? (fun h => h.id == hid) with
    | some h => async_step_configure entries { st with selectedHome := some h } none
    | none => (st, .showForm "select_home" [])

/-- Environment for a polling step: the outcome of
`poll_for_token` (which may raise `TadoXAuthError`), the api object's token
fields after a successful poll, and the outcome of `get_homes`. -/
structure AuthEnv where
  pollOutcome : Except PyExc Bool
  tokensAfterPoll : ApiTokens
  homesOutcome : Except PyExc (List Home)
deriving Repr

/-- `TadoXConfigFlow.async_step_auth` (config_flow.py lines 86-127).
With input and a truthy `self._api and self._device_code` (an empty device
code is falsy in Python) it calls `poll_for_token(device_code, interval=3,
timeout=120)`.  On timeout (`False`) it sets the `"auth_timeout"` error; on
success it calls `get_homes` and dispatches on the number of homes: one home
is selected and the configure step shown, several homes lead to the
select-home step, zero homes set the `"no_homes"` error.  A `TadoXAuthError`
from either call sets `"auth_error"`.  Otherwise the auth form is shown. -/
def async_step_auth (entries : List ExistingEntry) (st : FlowState)
    (env : AuthEnv) (userInput : Option Unit) :
    FlowState × List FlowEffect × StepResult :=
  match userInput with
  | none => (st, [], .showForm "auth" [])
  | some _ =>
    match st.api, st.deviceCode with
    | some _, some dc =>
      if dc = "" then (st, [], .showForm "auth" [])
      else
        match env.pollOutcome with
        | .error .tadoAuthError =>
            (st, [.pollForToken dc 3 120], .showForm "auth" [("base", "auth_error")])
        | .error e => (st, [.pollForToken dc 3 120], .raised e)
        | .ok false =>
            (st, [.pollForToken dc 3 120], .showForm "auth" [("base", "auth_timeout")])
        | .ok true =>
          let st1 := { st with api := some env.tokensAfterPoll }
          match env.homesOutcome with
          | .error .tadoAuthError =>
              (st1, [.pollForToken dc 3 120, .getHomes],
                .showForm "auth" [("base", "auth_error")])
          | .error e => (st1, [.pollForToken dc 3 120, .getHomes], .raised e)
          | .ok hs =>
            let st2 := { st1 with homes := hs }
            if hs.length = 1 then
              let st3 := { st2 with selectedHome := hs.head? }
              let res := async_step_configure entries st3 none
              (res.1, [.pollForToken dc 3 120, .getHomes], res.2)
            else if 1 < hs.length then
              let res := async_step_select_home entries st2 none
              (res.1, [.pollForToken dc 3 120, .getHomes], res.2)
            else
              (st2, [.pollForToken dc 3 120, .getHomes],
                .showForm "auth" [("base", "no_homes")])
    | _, _ => (st, [], .showForm "auth" [])

/-- The dictionary returned by `TadoXApi.start_device_auth`: `device_code`
and `user_code` are accessed with `[]`, the two verification-URI keys with
`.get` and so may be absent. -/
structure DeviceAuthData where
  device_code : String
  user_code : String
  verification_uri_complete : Option String
  verification_uri : Option String
deriving Repr, DecidableEq

/-- Environment for the user step: the outcome of `start_device_auth`, which
may raise `TadoXAuthError` or `aiohttp.ClientError`. -/
structure UserEnv where
  startDeviceAuth : Except PyExc DeviceAuthData
deriving Repr

/-- `TadoXConfigFlow.async_step_user` (config_flow.py lines 49-84).
With input it creates a fresh `TadoXApi` (no tokens), calls
`start_device_auth`, stores the device code, user code and verification URI
(`verification_uri_complete`, falling back to `verification_uri`, falling
back to a fixed URL) and tail-calls `async_step_auth()` with no input.  A
`TadoXAuthError` sets `"auth_error"`, an `aiohttp.ClientError` sets
`"cannot_connect"`, and the user form is shown again. -/
def async_step_user (entries : List ExistingEntry) (st : FlowState)
    (uenv : UserEnv) (aenv : AuthEnv) (userInput : Option Unit) :
    FlowState × List FlowEffect × StepResult :=
  match userInput with
  | none => (st, [], .showForm "user" [])
  | some _ =>
    let st0 := { st with api := some { accessToken := none, refreshToken := none, tokenExpiry := none } }
    match uenv.startDeviceAuth with
    | .ok d =>
      let st1 := { st0 with
        deviceCode := some d.device_code
        userCode := some d.user_code
        verificationUri := some (d.verification_uri_complete.getD
          (d.verification_uri.getD "https://login.tado.com/oauth2/device")) }
      let res := async_step_auth entries st1 aenv none
      (res.1, .startDeviceAuth :: res.2.1, res.2.2)
    | .error .tadoAuthError =>
        (st0, [.startDeviceAuth], .showForm "user" [("base", "auth_error")])
    | .error .clientError =>
        (st0, [.startDeviceAuth], .showForm "user" [("base", "cannot_connect")])
    | .error e => (st0, [.startDeviceAuth], .raised e)

/-- `TadoXConfigFlow.async_step_reauth_auth` (config_flow.py lines 264-303).
Same guard and poll call as `async_step_auth` (`interval=3, timeout=120`).
On success it calls `async_update_reload_and_abort` with the reauth entry's
data, replacing only the access-token, refresh-token and token-expiry keys
with the api object's values; on timeout it sets `"auth_timeout"`, on
`TadoXAuthError` it sets `"auth_error"`, and the reauth form is shown. -/
def async_step_reauth_auth (st : FlowState) (env : AuthEnv)
    (reauthData : EntryData) (userInput : Option Unit) :
    FlowState × List FlowEffect × StepResult :=
  match userInput with
  | none => (st, [], .showForm "reauth_auth" [])
  | some _ =>
    match st.api, st.deviceCode with
    | some _, some dc =>
      if dc = "" then (st, [], .showForm "reauth_auth" [])
      else
        match env.pollOutcome with
        | .error .tadoAuthError =>
            (st, [.pollForToken dc 3 120], .showForm "reauth_auth" [("base", "auth_error")])
        | .error e => (st, [.pollForToken dc 3 120], .raised e)
        | .ok false =>
            (st, [.pollForToken dc 3 120], .showForm "reauth_auth" [("base", "auth_timeout")])
        | .ok true =>
          let tok := env.tokensAfterPoll
          (( { st with api := some tok } : FlowState), [.pollForToken dc 3 120],
            .updateReloadAndAbort
              { reauthData with
                accessToken := tok.accessToken
                refreshToken := tok.refreshToken
                tokenExpiry := tok.tokenExpiry })
    | _, _ => (st, [], .showForm "reauth_auth" [])

/-- Host and vendor calls `async_setup_entry` performs, in order. -/
inductive SetupEffect where
  | refreshAccessToken
  | updateEntry (data : EntryData)
  | registerHomeDevice
  | createCoordinator (scanInterval : Nat)
  | firstRefresh
  | storeCoordinator
  | forwardPlatforms
deriving Repr, DecidableEq

/-- Result of `async_setup_entry`: the returned boolean, a raised
`ConfigEntryAuthFailed`, a raised `ConfigEntryNotReady`, or an uncaught
exception. -/
inductive SetupResult where
  | returned (ok : Bool)
  | raisedAuthFailed
  | raisedNotReady
  | uncaught (e : PyExc)
deriving Repr, DecidableEq

/-- Environment for `async_setup_entry`: the outcome of
`api.refresh_access_token()` (on success, the api object's token fields
afterwards), the optional YAML `scan_interval` override, and the outcome of
`coordinator.async_config_entry_first_refresh()`. -/
structure SetupEnv where
  refreshOutcome : Except PyExc ApiTokens
  yamlScanInterval : Option Nat
  firstRefreshOutcome : Except PyExc Unit
deriving Repr

/-- `async_setup_entry` (`__init__.py` lines 60-142).  It builds the api
from the stored tokens and calls `refresh_access_token`: on `TadoXAuthError`
it raises `ConfigEntryAuthFailed`; on success it updates the entry data
(token fields only, via dict spread), registers the home device, creates the
coordinator with the YAML-overridable scan interval, and performs the first
refresh: on `TadoXApiError` it raises `ConfigEntryNotReady`; otherwise it
stores the coordinator in `hass.data`, forwards the entity platforms, and
returns `True`. -/
def async_setup_entry (env : SetupEnv) (entry : EntryData) :
    List SetupEffect × SetupResult :=
  match env.refreshOutcome with
  | .error .tadoAuthError => ([.refreshAccessToken], .raisedAuthFailed)
  | .error e => ([.refreshAccessToken], .uncaught e)
  | .ok tok =>
    let newData : EntryData :=
      { entry with
        accessToken := tok.accessToken
        refreshToken := tok.refreshToken
        tokenExpiry := tok.tokenExpiry }
    let scanInterval := env.yamlScanInterval.getD (entry.scanInterval.getD DEFAULT_SCAN_INTERVAL)
    let pre : List SetupEffect :=
      [.refreshAccessToken, .updateEntry newData, .registerHomeDevice,
       .createCoordinator scanInterval, .firstRefresh]
    match env.firstRefreshOutcome with
    | .error .tadoApiError => (pre, .raisedNotReady)
    | .error e => (pre, .uncaught e)
    | .ok _ => (pre ++ [.storeCoordinator, .forwardPlatforms], .returned true)

/-- Modelled from the spec: `api.py` is not under `src/`.  The spec describes
`poll_for_token` as "a ~15-line bounded poll loop" "with timeout": one token
request every `interval` seconds until granted or until `timeout` seconds
have elapsed, so at most `⌈timeout / interval⌉` requests are made. -/
def pollAttempts (interval timeout : Nat) : Nat :=
  (timeout + interval - 1) / interval

/-- Modelled from the spec: the poll loop's observable result.  `grant i`
says whether the i-th token request succeeds; the loop returns `True` as
soon as a request succeeds and `False` once the timeout bounds the number of
attempts. -/
def poll_for_token_model (grant : Nat → Bool) (interval timeout : Nat) : Bool :=
  (List.range (pollAttempts interval timeout)).any grant

/-- One device record of the coordinator data, as consumed by `number.py`
(`TadoXDevice` is defined in `coordinator.py`, which is not under `src/`;
only the fields `number.py` reads for the claims are modelled). -/
structure TadoXDevice where
  serial_number : String
  device_type : String
  connection_state : String
  temperature_offset : Option Rat
deriving Repr, DecidableEq

/-- The device-collection loop of `number.async_setup_entry` (number.py
lines 34-49): iterating `coordinator.data.devices.values()` in order, one
`TadoXTemperatureOffset` entity (identified here by its device serial) is
appended for each device whose `device_type` is `"VA04"` or `"SU04"`. -/
def offsetEntitySerials : List TadoXDevice → List String
  | [] => []
  | d :: rest =>
    if d.device_type == "VA04" || d.device_type == "SU04" then
      d.serial_number :: offsetEntitySerials rest
    else
      offsetEntitySerials rest

/-- Claim-side restatement for C9, following the spec words: entities are
created exactly for the devices whose type is `"VA04"` or `"SU04"`. -/
def offsetEntitySerialsSpec (ds : List TadoXDevice) : List String :=
  (ds.filter (fun d => d.device_type == "VA04" || d.device_type == "SU04")).map
    (fun d => d.serial_number)

/-- `coordinator.data.devices` is a dict keyed by serial; `.get(serial)`
returns the device or `None`.  Modelled as an association list. -/
def devicesGet (devices : List (String × TadoXDevice)) (serial : String) :
    Option TadoXDevice :=
  (devices.find? (fun p => p.1 == serial)).map (fun p => p.2)

/-- `TadoXTemperatureOffset.available` (number.py lines 119-125): `False`
when `_device` is `None`, else whether `connection_state == "CONNECTED"`. -/
def entityAvailable (devices : List (String × TadoXDevice)) (serial : String) : Bool :=
  match devicesGet devices serial with
  | none => false
  | some d => d.connection_state == "CONNECTED"

/-- `TadoXTemperatureOffset.native_value` (number.py lines 127-133): `None`
when `_device` is `None`, else the device's `temperature_offset`. -/
def entityNativeValue (devices : List (String × TadoXDevice)) (serial : String) :
    Option Rat :=
  match devicesGet devices serial with
  | none => none
  | some d => d.temperature_offset

/-- Calls performed by `async_set_native_value`, in order. -/
inductive NumberEffect where
  | setDeviceTemperatureOffset (serial : String) (value : Rat)
  | requestRefresh
  | logError
deriving Repr, DecidableEq

/-- Environment for `async_set_native_value`: the outcomes of
`api.set_device_temperature_offset` and `coordinator.async_request_refresh`. -/
structure SetValueEnv where
  setOffsetOutcome : Except PyExc Unit
  refreshOutcome : Except PyExc Unit
deriving Repr

/-- `TadoXTemperatureOffset.async_set_native_value` (number.py lines
140-154): the offset is sent to the vendor API, then a coordinator refresh
is requested; any exception in the `try` block is logged and re-raised, so an
API failure skips the refresh request. -/
def async_set_native_value (env : SetValueEnv) (serial : String) (value : Rat) :
    List NumberEffect × Except PyExc Unit :=
  match env.setOffsetOutcome with
  | .error e => ([.setDeviceTemperatureOffset serial value, .logError], .error e)
  | .ok _ =>
    match env.refreshOutcome with
    | .error e =>
        ([.setDeviceTemperatureOffset serial value, .requestRefresh, .logError], .error e)
    | .ok _ => ([.setDeviceTemperatureOffset serial value, .requestRefresh], .ok ())

end TadoX

open TadoX

/-- C1: in both `async_step_auth` and `async_step_reauth_auth`,
`poll_for_token` is called with `interval=3` and `timeout=120`; whenever
polling returns unsuccessfully (`False`, timeout reached) each step sets the
form error `auth_timeout` and re-shows its form with the flow state
unchanged, so no config entry is created or updated; the modelled poll loop
is bounded: with these arguments it makes at most 40 token requests. -/
theorem poll_timeout_reshows_form (entries : List ExistingEntry)
    (st : FlowState) (env : AuthEnv) (a : ApiTokens) (dc : String)
    (rentry : EntryData)
    (hapi : st.api = some a) (hdc : st.deviceCode = some dc) (hne : dc ≠ "")
    (hpoll : env.pollOutcome = .ok false) :
    async_step_auth entries st env (some ()) =
      (st, [.pollForToken dc 3 120], .showForm "auth" [("base", "auth_timeout")]) ∧
    async_step_reauth_auth st env rentry (some ()) =
      (st, [.pollForToken dc 3 120], .showForm "reauth_auth" [("base", "auth_timeout")]) ∧
    pollAttempts 3 120 = 40 ∧
    (∀ grant : Nat → Bool, poll_for_token_model grant 3 120 = true →
      ∃ i, i < 40 ∧ grant i = true) := by
  refine ⟨?_, ?_, by decide, ?_⟩
  · simp [async_step_auth, hapi, hdc, hne, hpoll]
  · simp [async_step_reauth_auth, hapi, hdc, hne, hpoll]
  · intro grant h
    have h2 := h
    rw [poll_for_token_model, List.any_eq_true] at h2
    obtain ⟨i, hi, hg⟩ := h2
    exact ⟨i, by simpa [pollAttempts] using List.mem_range.mp hi, hg⟩

/-- C1 witness at a concrete flow state and environment. -/
theorem poll_timeout_reshows_form_witness :
    async_step_auth []
      { api := some { accessToken := none, refreshToken := none, tokenExpiry := none },
        deviceCode := some "dc-1", userCode := none, verificationUri := none,
        homes := [], selectedHome := none }
      { pollOutcome := .ok false,
        tokensAfterPoll := { accessToken := none, refreshToken := none, tokenExpiry := none },
        homesOutcome := .ok [] }
      (some ()) =
      ({ api := some { accessToken := none, refreshToken := none, tokenExpiry := none },
         deviceCode := some "dc-1", userCode := none, verificationUri := none,
         homes := [], selectedHome := none },
       [.pollForToken "dc-1" 3 120], .showForm "auth" [("base", "auth_timeout")]) :=
  (poll_timeout_reshows_form []
    { api := some { accessToken := none, refreshToken := none, tokenExpiry := none },
      deviceCode := some "dc-1", userCode := none, verificationUri := none,
      homes := [], selectedHome := none }
    { pollOutcome := .ok false,
      tokensAfterPoll := { accessToken := none, refreshToken := none, tokenExpiry := none },
      homesOutcome := .ok [] }
    { accessToken := none, refreshToken := none, tokenExpiry := none }
    "dc-1"
    { homeId := 1, homeName := none, accessToken := none, refreshToken := none,
      tokenExpiry := none, scanInterval := none, geofencingEnabled := none,
      minTemp := none, maxTemp := none }
    rfl rfl (by decide) rfl).1

/-- C2: `async_setup_entry` performs the token refresh first (before any
coordinator is created), and whenever the refresh raises `TadoXAuthError`
the setup raises `ConfigEntryAuthFailed` with the trace consisting of the
refresh alone — so no coordinator is created, nothing is stored in
`hass.data`, and no platform is forwarded. -/
theorem setup_refresh_gate (env : SetupEnv) (entry : EntryData) :
    (async_setup_entry env entry).1.head? = some .refreshAccessToken ∧
    (env.refreshOutcome = .error .tadoAuthError →
      async_setup_entry env entry = ([.refreshAccessToken], .raisedAuthFailed) ∧
      (∀ si, SetupEffect.createCoordinator si ∉ (async_setup_entry env entry).1) ∧
      SetupEffect.storeCoordinator ∉ (async_setup_entry env entry).1 ∧
      SetupEffect.forwardPlatforms ∉ (async_setup_entry env entry).1) := by
  constructor
  · rcases henv : env.refreshOutcome with e | tok
    · cases e <;> simp [async_setup_entry, henv]
    · rcases hfr : env.firstRefreshOutcome with e | u
      · cases e <;> simp [async_setup_entry, henv, hfr]
      · simp [async_setup_entry, henv, hfr]
  · intro h
    simp [async_setup_entry, h]

/-- C2 witness at a concrete environment and entry. -/
theorem setup_refresh_gate_witness :
    async_setup_entry
      { refreshOutcome := .error .tadoAuthError, yamlScanInterval := none,
        firstRefreshOutcome := .ok () }
      { homeId := 7, homeName := some "Casa", accessToken := some "at",
        refreshToken := some "rt", tokenExpiry := none, scanInterval := some 60,
        geofencingEnabled := some false, minTemp := some 5, maxTemp := some 30 } =
      ([.refreshAccessToken], .raisedAuthFailed) :=
  ((setup_refresh_gate
    { refreshOutcome := .error .tadoAuthError, yamlScanInterval := none,
      firstRefreshOutcome := .ok () }
    { homeId := 7, homeName := some "Casa", accessToken := some "at",
      refreshToken := some "rt", tokenExpiry := none, scanInterval := some 60,
      geofencingEnabled := some false, minTemp := some 5, maxTemp := some 30 }).2
    rfl).1

/-- C3: after a successful token poll in `async_step_auth`, the dispatch is
by the number of homes `get_homes` returned: a single home is stored as the
selected home and the configure form is shown; more than one home leads to
the select-home form; zero homes set the `no_homes` error on the re-shown
auth form. -/
theorem auth_success_home_dispatch (entries : List ExistingEntry)
    (st : FlowState) (env : AuthEnv) (a : ApiTokens) (dc : String)
    (hs : List Home)
    (hapi : st.api = some a) (hdc : st.deviceCode = some dc) (hne : dc ≠ "")
    (hpoll : env.pollOutcome = .ok true) (hhomes : env.homesOutcome = .ok hs) :
    (∀ h0, hs = [h0] →
      (async_step_auth entries st env (some ())).2.2 = .showForm "configure" [] ∧
      (async_step_auth entries st env (some ())).1.selectedHome = some h0) ∧
    (1 < hs.length →
      (async_step_auth entries st env (some ())).2.2 = .showForm "select_home" []) ∧
    (hs = [] →
      (async_step_auth entries st env (some ())).2.2 =
        .showForm "auth" [("base", "no_homes")]) := by
  refine ⟨?_, ?_, ?_⟩
  · rintro h0 rfl
    simp [async_step_auth, hapi, hdc, hne, hpoll, hhomes, async_step_configure]
  · intro hlen
    have hlen1 : ¬ hs.length = 1 := by omega
    simp [async_step_auth, hapi, hdc, hne, hpoll, hhomes, hlen, hlen1,
      async_step_select_home]
  · rintro rfl
    simp [async_step_auth, hapi, hdc, hne, hpoll, hhomes]

/-- C3 witness at a concrete environment returning exactly one home. -/
theorem auth_success_home_dispatch_witness :
    (async_step_auth []
      { api := some { accessToken := some "at", refreshToken := some "rt", tokenExpiry := none },
        deviceCode := some "dc-2", userCode := none, verificationUri := none,
        homes := [], selectedHome := none }
      { pollOutcome := .ok true,
        tokensAfterPoll := { accessToken := some "at2", refreshToken := some "rt2", tokenExpiry := none },
        homesOutcome := .ok [{ id := 11, name := "Home A" }] }
      (some ())).2.2 = .showForm "configure" [] ∧
    (async_step_auth []
      { api := some { accessToken := some "at", refreshToken := some "rt", tokenExpiry := none },
        deviceCode := some "dc-2", userCode := none, verificationUri := none,
        homes := [], selectedHome := none }
      { pollOutcome := .ok true,
        tokensAfterPoll := { accessToken := some "at2", refreshToken := some "rt2", tokenExpiry := none },
        homesOutcome := .ok [{ id := 11, name := "Home A" }] }
      (some ())).1.selectedHome = some { id := 11, name := "Home A" } :=
  (auth_success_home_dispatch []
    { api := some { accessToken := some "at", refreshToken := some "rt", tokenExpiry := none },
      deviceCode := some "dc-2", userCode := none, verificationUri := none,
      homes := [], selectedHome := none }
    { pollOutcome := .ok true,
      tokensAfterPoll := { accessToken := some "at2", refreshToken := some "rt2", tokenExpiry := none },
      homesOutcome := .ok [{ id := 11, name := "Home A" }] }
    { accessToken := some "at", refreshToken := some "rt", tokenExpiry := none }
    "dc-2" [{ id := 11, name := "Home A" }]
    rfl rfl (by decide) rfl rfl).1 { id := 11, name := "Home A" } rfl

/-- C4: the token update is frame-preserving on the stored entry data.  At
startup, `async_setup_entry` (after a successful refresh) updates the entry
with data whose access-token, refresh-token and token-expiry fields are the
api object's new values and whose every other field (home id, home name,
scan interval, geofencing flag, min/max temperature) equals the old entry's;
likewise for the data `async_step_reauth_auth` writes when a reauthorization
completes. -/
theorem token_update_preserves_frame (env : SetupEnv) (entry : EntryData)
    (tok : ApiTokens) (st : FlowState) (aenv : AuthEnv) (rentry : EntryData)
    (a : ApiTokens) (dc : String)
    (hrefresh : env.refreshOutcome = .ok tok)
    (hapi : st.api = some a) (hdc : st.deviceCode = some dc) (hne : dc ≠ "")
    (hpoll : aenv.pollOutcome = .ok true) :
    (∃ d, SetupEffect.updateEntry d ∈ (async_setup_entry env entry).1 ∧
      d.accessToken = tok.accessToken ∧ d.refreshToken = tok.refreshToken ∧
      d.tokenExpiry = tok.tokenExpiry ∧ d.homeId = entry.homeId ∧
      d.homeName = entry.homeName ∧ d.scanInterval = entry.scanInterval ∧
      d.geofencingEnabled = entry.geofencingEnabled ∧
      d.minTemp = entry.minTemp ∧ d.maxTemp = entry.maxTemp) ∧
    (∃ d, (async_step_reauth_auth st aenv rentry (some ())).2.2 =
        .updateReloadAndAbort d ∧
      d.accessToken = aenv.tokensAfterPoll.accessToken ∧
      d.refreshToken = aenv.tokensAfterPoll.refreshToken ∧
      d.tokenExpiry = aenv.tokensAfterPoll.tokenExpiry ∧
      d.homeId = rentry.homeId ∧ d.homeName = rentry.homeName ∧
      d.scanInterval = rentry.scanInterval ∧
      d.geofencingEnabled = rentry.geofencingEnabled ∧
      d.minTemp = rentry.minTemp ∧ d.maxTemp = rentry.maxTemp) := by
  constructor
  · refine ⟨{ entry with
        accessToken := tok.accessToken
        refreshToken := tok.refreshToken
        tokenExpiry := tok.tokenExpiry },
      ?_, rfl, rfl, rfl, rfl, rfl, rfl, rfl, rfl, rfl⟩
    rcases hfr : env.firstRefreshOutcome with e | u
    · cases e <;> simp [async_setup_entry, hrefresh, hfr]
    · simp [async_setup_entry, hrefresh, hfr]
  · refine ⟨{ rentry with
        accessToken := aenv.tokensAfterPoll.accessToken
        refreshToken := aenv.tokensAfterPoll.refreshToken
        tokenExpiry := aenv.tokensAfterPoll.tokenExpiry },
      ?_, rfl, rfl, rfl, rfl, rfl, rfl, rfl, rfl, rfl⟩
    simp [async_step_reauth_auth, hapi, hdc, hne, hpoll]

/-- C4 witness at concrete entry data, tokens and flow state. -/
theorem token_update_preserves_frame_witness :
    (∃ d, SetupEffect.updateEntry d ∈
        (async_setup_entry
          { refreshOutcome := .ok { accessToken := some "newat", refreshToken := some "newrt", tokenExpiry := some "2026-01-01" },
            yamlScanInterval := none, firstRefreshOutcome := .ok () }
          { homeId := 7, homeName := some "Casa", accessToken := some "at",
            refreshToken := some "rt", tokenExpiry := none, scanInterval := some 60,
            geofencingEnabled := some true, minTemp := some 5, maxTemp := some 30 }).1 ∧
      d.accessToken = some "newat" ∧ d.refreshToken = some "newrt" ∧
      d.tokenExpiry = some "2026-01-01" ∧ d.homeId = 7 ∧
      d.homeName = some "Casa" ∧ d.scanInterval = some 60 ∧
      d.geofencingEnabled = some true ∧ d.minTemp = some 5 ∧ d.maxTemp = some 30) ∧
    (∃ d, (async_step_reauth_auth
        { api := some { accessToken := some "at", refreshToken := some "rt", tokenExpiry := none },
          deviceCode := some "dc-3", userCode := none, verificationUri := none,
          homes := [], selectedHome := none }
        { pollOutcome := .ok true,
          tokensAfterPoll := { accessToken := some "newat", refreshToken := some "newrt", tokenExpiry := some "2026-01-01" },
          homesOutcome := .ok [] }
        { homeId := 7, homeName := some "Casa", accessToken := some "at",
          refreshToken := some "rt", tokenExpiry := none, scanInterval := some 60,
          geofencingEnabled := some true, minTemp := some 5, maxTemp := some 30 }
        (some ())).2.2 = .updateReloadAndAbort d ∧
      d.accessToken = some "newat" ∧ d.refreshToken = some "newrt" ∧
      d.tokenExpiry = some "2026-01-01" ∧ d.homeId = 7 ∧
      d.homeName = some "Casa" ∧ d.scanInterval = some 60 ∧
      d.geofencingEnabled = some true ∧ d.minTemp = some 5 ∧ d.maxTemp = some 30) :=
  token_update_preserves_frame
    { refreshOutcome := .ok { accessToken := some "newat", refreshToken := some "newrt", tokenExpiry := some "2026-01-01" },
      yamlScanInterval := none, firstRefreshOutcome := .ok () }
    { homeId := 7, homeName := some "Casa", accessToken := some "at",
      refreshToken := some "rt", tokenExpiry := none, scanInterval := some 60,
      geofencingEnabled := some true, minTemp := some 5, maxTemp := some 30 }
    { accessToken := some "newat", refreshToken := some "newrt", tokenExpiry := some "2026-01-01" }
    { api := some { accessToken := some "at", refreshToken := some "rt", tokenExpiry := none },
      deviceCode := some "dc-3", userCode := none, verificationUri := none,
      homes := [], selectedHome := none }
    { pollOutcome := .ok true,
      tokensAfterPoll := { accessToken := some "newat", refreshToken := some "newrt", tokenExpiry := some "2026-01-01" },
      homesOutcome := .ok [] }
    { homeId := 7, homeName := some "Casa", accessToken := some "at",
      refreshToken := some "rt", tokenExpiry := none, scanInterval := some 60,
      geofencingEnabled := some true, minTemp := some 5, maxTemp := some 30 }
    { accessToken := some "at", refreshToken := some "rt", tokenExpiry := none }
    "dc-3" rfl rfl rfl (by decide) rfl

/-- C5: `async_setup_entry` returns `True` only when the first coordinator
refresh succeeded, with the platform forwarding as the last performed
effect; and whenever (the refresh having succeeded) the first refresh raises
`TadoXApiError`, the setup raises `ConfigEntryNotReady` and the coordinator
is neither stored in `hass.data` nor any platform forwarded. -/
theorem setup_first_refresh_gate (env : SetupEnv) (entry : EntryData) :
    ((async_setup_entry env entry).2 = .returned true →
      env.firstRefreshOutcome = .ok () ∧
      (async_setup_entry env entry).1.getLast? = some .forwardPlatforms) ∧
    (∀ tok, env.refreshOutcome = .ok tok →
      env.firstRefreshOutcome = .error .tadoApiError →
      (async_setup_entry env entry).2 = .raisedNotReady ∧
      SetupEffect.storeCoordinator ∉ (async_setup_entry env entry).1 ∧
      SetupEffect.forwardPlatforms ∉ (async_setup_entry env entry).1) := by
  constructor
  · intro hret
    rcases henv : env.refreshOutcome with e | tok
    · cases e <;> simp [async_setup_entry, henv] at hret
    · rcases hfr : env.firstRefreshOutcome with e | u
      · cases e <;> simp [async_setup_entry, henv, hfr] at hret
      · exact ⟨rfl, by simp [async_setup_entry, henv, hfr]⟩
  · intro tok hrefresh hfr
    simp [async_setup_entry, hrefresh, hfr]

/-- C5 witness at a concrete environment whose first refresh fails. -/
theorem setup_first_refresh_gate_witness :
    (async_setup_entry
      { refreshOutcome := .ok { accessToken := some "newat", refreshToken := some "newrt", tokenExpiry := none },
        yamlScanInterval := none, firstRefreshOutcome := .error .tadoApiError }
      { homeId := 7, homeName := some "Casa", accessToken := some "at",
        refreshToken := some "rt", tokenExpiry := none, scanInterval := some 60,
        geofencingEnabled := some false, minTemp := some 5, maxTemp := some 30 }).2 =
      .raisedNotReady ∧
    SetupEffect.storeCoordinator ∉
      (async_setup_entry
        { refreshOutcome := .ok { accessToken := some "newat", refreshToken := some "newrt", tokenExpiry := none },
          yamlScanInterval := none, firstRefreshOutcome := .error .tadoApiError }
        { homeId := 7, homeName := some "Casa", accessToken := some "at",
          refreshToken := some "rt", tokenExpiry := none, scanInterval := some 60,
          geofencingEnabled := some false, minTemp := some 5, maxTemp := some 30 }).1 ∧
    SetupEffect.forwardPlatforms ∉
      (async_setup_entry
        { refreshOutcome := .ok { accessToken := some "newat", refreshToken := some "newrt", tokenExpiry := none },
          yamlScanInterval := none, firstRefreshOutcome := .error .tadoApiError }
        { homeId := 7, homeName := some "Casa", accessToken := some "at",
          refreshToken := some "rt", tokenExpiry := none, scanInterval := some 60,
          geofencingEnabled := some false, minTemp := some 5, maxTemp := some 30 }).1 :=
  (setup_first_refresh_gate
    { refreshOutcome := .ok { accessToken := some "newat", refreshToken := some "newrt", tokenExpiry := none },
      yamlScanInterval := none, firstRefreshOutcome := .error .tadoApiError }
    { homeId := 7, homeName := some "Casa", accessToken := some "at",
      refreshToken := some "rt", tokenExpiry := none, scanInterval := some 60,
      geofencingEnabled := some false, minTemp := some 5, maxTemp := some 30 }).2
    { accessToken := some "newat", refreshToken := some "newrt", tokenExpiry := none }
    rfl rfl

/-- C6: on every submission of the user step, a successful
`start_device_auth` stores the device code, the user code, and the
verification URI (preferring `verification_uri_complete`, then
`verification_uri`, then the fixed fallback URL) and advances to the auth
step; a `TadoXAuthError` sets the error `auth_error` and an
`aiohttp.ClientError` sets `cannot_connect`, both re-showing the user
form. -/
theorem user_step_device_auth (entries : List ExistingEntry) (st : FlowState)
    (uenv : UserEnv) (aenv : AuthEnv) :
    (∀ d, uenv.startDeviceAuth = .ok d →
      (async_step_user entries st uenv aenv (some ())).2.2 = .showForm "auth" [] ∧
      (async_step_user entries st uenv aenv (some ())).1.deviceCode = some d.device_code ∧
      (async_step_user entries st uenv aenv (some ())).1.userCode = some d.user_code ∧
      (async_step_user entries st uenv aenv (some ())).1.verificationUri =
        some (d.verification_uri_complete.getD
          (d.verification_uri.getD "https://login.tado.com/oauth2/device"))) ∧
    (uenv.startDeviceAuth = .error .tadoAuthError →
      (async_step_user entries st uenv aenv (some ())).2.2 =
        .showForm "user" [("base", "auth_error")]) ∧
    (uenv.startDeviceAuth = .error .clientError →
      (async_step_user entries st uenv aenv (some ())).2.2 =
        .showForm "user" [("base", "cannot_connect")]) := by
  refine ⟨?_, ?_, ?_⟩
  · intro d hd
    simp [async_step_user, hd, async_step_auth]
  · intro hd
    simp [async_step_user, hd]
  · intro hd
    simp [async_step_user, hd]

/-- C6 witness: a successful device-auth start whose data has no
`verification_uri_complete`, so the URI falls back to `verification_uri`. -/
theorem user_step_device_auth_witness :
    (async_step_user []
      { api := none, deviceCode := none, userCode := none, verificationUri := none,
        homes := [], selectedHome := none }
      { startDeviceAuth := .ok { device_code := "dcode", user_code := "ucode", verification_uri_complete := none, verification_uri := some "https://v.example" } }
      { pollOutcome := .ok false,
        tokensAfterPoll := { accessToken := none, refreshToken := none, tokenExpiry := none },
        homesOutcome := .ok [] }
      (some ())).2.2 = .showForm "auth" [] ∧
    (async_step_user []
      { api := none, deviceCode := none, userCode := none, verificationUri := none,
        homes := [], selectedHome := none }
      { startDeviceAuth := .ok { device_code := "dcode", user_code := "ucode", verification_uri_complete := none, verification_uri := some "https://v.example" } }
      { pollOutcome := .ok false,
        tokensAfterPoll := { accessToken := none, refreshToken := none, tokenExpiry := none },
        homesOutcome := .ok [] }
      (some ())).1.deviceCode = some "dcode" ∧
    (async_step_user []
      { api := none, deviceCode := none, userCode := none, verificationUri := none,
        homes := [], selectedHome := none }
      { startDeviceAuth := .ok { device_code := "dcode", user_code := "ucode", verification_uri_complete := none, verification_uri := some "https://v.example" } }
      { pollOutcome := .ok false,
        tokensAfterPoll := { accessToken := none, refreshToken := none, tokenExpiry := none },
        homesOutcome := .ok [] }
      (some ())).1.userCode = some "ucode" ∧
    (async_step_user []
      { api := none, deviceCode := none, userCode := none, verificationUri := none,
        homes := [], selectedHome := none }
      { startDeviceAuth := .ok { device_code := "dcode", user_code := "ucode", verification_uri_complete := none, verification_uri := some "https://v.example" } }
      { pollOutcome := .ok false,
        tokensAfterPoll := { accessToken := none, refreshToken := none, tokenExpiry := none },
        homesOutcome := .ok [] }
      (some ())).1.verificationUri = some "https://v.example" :=
  (user_step_device_auth []
    { api := none, deviceCode := none, userCode := none, verificationUri := none,
      homes := [], selectedHome := none }
    { startDeviceAuth := .ok { device_code := "dcode", user_code := "ucode", verification_uri_complete := none, verification_uri := some "https://v.example" } }
    { pollOutcome := .ok false,
      tokensAfterPoll := { accessToken := none, refreshToken := none, tokenExpiry := none },
      homesOutcome := .ok [] }).1
    { device_code := "dcode", user_code := "ucode", verification_uri_complete := none, verification_uri := some "https://v.example" }
    rfl

/-- C7: `async_set_native_value` sends the offset to the vendor API first
and only then requests a coordinator refresh; when the API call raises, the
exception is logged and re-raised and no refresh is requested. -/
theorem set_offset_order_and_errors (env : SetValueEnv) (serial : String)
    (value : Rat) :
    (∀ e, env.setOffsetOutcome = .error e →
      async_set_native_value env serial value =
        ([.setDeviceTemperatureOffset serial value, .logError], .error e) ∧
      NumberEffect.requestRefresh ∉ (async_set_native_value env serial value).1) ∧
    (env.setOffsetOutcome = .ok () →
      (async_set_native_value env serial value).1.take 2 =
        [.setDeviceTemperatureOffset serial value, .requestRefresh]) := by
  constructor
  · intro e he
    simp [async_set_native_value, he]
  · intro he
    rcases hrf : env.refreshOutcome with e | u <;>
      simp [async_set_native_value, he, hrf]

/-- C7 witness: a failing API call at a concrete serial and value. -/
theorem set_offset_order_and_errors_witness :
    async_set_native_value
      { setOffsetOutcome := .error .tadoApiError, refreshOutcome := .ok () }
      "VA1234567890" 2 =
      ([.setDeviceTemperatureOffset "VA1234567890" 2, .logError], .error .tadoApiError) ∧
    NumberEffect.requestRefresh ∉
      (async_set_native_value
        { setOffsetOutcome := .error .tadoApiError, refreshOutcome := .ok () }
        "VA1234567890" 2).1 :=
  (set_offset_order_and_errors
    { setOffsetOutcome := .error .tadoApiError, refreshOutcome := .ok () }
    "VA1234567890" 2).1 .tadoApiError rfl

/-- C8: with a live api object, `_create_entry` aborts with
`already_configured` exactly when some current entry's `unique_id` equals
`tado_x_` followed by the home id; any entry the flow creates carries no
`unique_id` (the flow never calls `async_set_unique_id`); and when no
current entry carries the matching `unique_id` the flow always creates the
entry — the check never inspects the stored home id, so a home that already
has an entry (with `unique_id` `None`) is configured again. -/
theorem create_entry_unique_id_policy (a : ApiTokens)
    (entries : List ExistingEntry) (home : Home) (si : Nat) (g : Bool)
    (mn mx : Rat) :
    (_create_entry (some a) entries home si g mn mx = .abort "already_configured" ↔
      ∃ en ∈ entries, en.uniqueId = some (homeUniqueId home)) ∧
    (∀ t uid d, _create_entry (some a) entries home si g mn mx = .createEntry t uid d →
      uid = none) ∧
    ((∀ en ∈ entries, en.uniqueId ≠ some (homeUniqueId home)) →
      _create_entry (some a) entries home si g mn mx =
        .createEntry home.name none
          { homeId := home.id, homeName := some home.name,
            accessToken := a.accessToken, refreshToken := a.refreshToken,
            tokenExpiry := a.tokenExpiry, scanInterval := some si,
            geofencingEnabled := some g, minTemp := some mn, maxTemp := some mx }) := by
  by_cases h : entries.any (fun en => en.uniqueId == some (homeUniqueId home))
  · refine ⟨?_, ?_, ?_⟩
    · simp only [_create_entry, h, if_true]
      simp only [List.any_eq_true, beq_iff_eq] at h
      simpa using h
    · intro t uid d hd
      simp [_create_entry, h] at hd
    · intro hno
      simp only [List.any_eq_true, beq_iff_eq] at h
      obtain ⟨en, hen, hu⟩ := h
      exact absurd hu (hno en hen)
  · refine ⟨?_, ?_, ?_⟩
    · simp only [_create_entry, h, if_false]
      simp only [List.any_eq_true, beq_iff_eq] at h
      constructor
      · intro hc
        simp at hc
      · intro hc
        exact absurd hc h
    · intro t uid d hd
      simp [_create_entry, h] at hd
      exact hd.2.1.symm
    · intro hno
      simp [_create_entry, h]

/-- C8 witness: an existing entry for the same home id but with `unique_id`
`None` does not stop `_create_entry` from creating a second entry. -/
theorem create_entry_unique_id_policy_witness :
    _create_entry
      (some { accessToken := some "at", refreshToken := some "rt", tokenExpiry := none })
      [{ uniqueId := none,
         data := { homeId := 7, homeName := some "Casa", accessToken := some "old",
                   refreshToken := some "oldr", tokenExpiry := none, scanInterval := some 60,
                   geofencingEnabled := some false, minTemp := some 5, maxTemp := some 30 } }]
      { id := 7, name := "Casa" } 120 true 5 30 =
      .createEntry "Casa" none
        { homeId := 7, homeName := some "Casa", accessToken := some "at",
          refreshToken := some "rt", tokenExpiry := none, scanInterval := some 120,
          geofencingEnabled := some true, minTemp := some 5, maxTemp := some 30 } :=
  (create_entry_unique_id_policy
    { accessToken := some "at", refreshToken := some "rt", tokenExpiry := none }
    [{ uniqueId := none,
       data := { homeId := 7, homeName := some "Casa", accessToken := some "old",
                 refreshToken := some "oldr", tokenExpiry := none, scanInterval := some 60,
                 geofencingEnabled := some false, minTemp := some 5, maxTemp := some 30 } }]
    { id := 7, name := "Casa" } 120 true 5 30).2.2 (by decide)

/-- C9: the entity-collection loop of the number platform creates
temperature-offset entities exactly for the devices whose `device_type` is
`"VA04"` or `"SU04"` (one entity per such device, in device order), and a
device of any other type — `"TR04"` and `"IB02"` included — contributes no
entity. -/
theorem offset_entities_exactly_va04_su04 :
    (∀ ds : List TadoXDevice, offsetEntitySerials ds = offsetEntitySerialsSpec ds) ∧
    (∀ d : TadoXDevice, d.device_type ≠ "VA04" → d.device_type ≠ "SU04" →
      offsetEntitySerials [d] = []) := by
  constructor
  · intro ds
    induction ds with
    | nil => rfl
    | cons d rest ih =>
      by_cases h : (d.device_type == "VA04" || d.device_type == "SU04") = true
      · simp [offsetEntitySerials, offsetEntitySerialsSpec, h, List.filter] at ih ⊢
        exact ih
      · simp [offsetEntitySerials, offsetEntitySerialsSpec, h, List.filter] at ih ⊢
        exact ih
  · intro d h1 h2
    simp [offsetEntitySerials, h1, h2]

/-- C9 witness: a mixed device list yields entities exactly for the VA04 and
SU04 devices, and a lone TR04 device yields none. -/
theorem offset_entities_exactly_va04_su04_witness :
    offsetEntitySerials
      [{ serial_number := "VA1", device_type := "VA04", connection_state := "CONNECTED", temperature_offset := some 0 },
       { serial_number := "IB1", device_type := "IB02", connection_state := "CONNECTED", temperature_offset := none },
       { serial_number := "SU1", device_type := "SU04", connection_state := "CONNECTED", temperature_offset := some 1 },
       { serial_number := "TR1", device_type := "TR04", connection_state := "CONNECTED", temperature_offset := none }] =
      offsetEntitySerialsSpec
        [{ serial_number := "VA1", device_type := "VA04", connection_state := "CONNECTED", temperature_offset := some 0 },
         { serial_number := "IB1", device_type := "IB02", connection_state := "CONNECTED", temperature_offset := none },
         { serial_number := "SU1", device_type := "SU04", connection_state := "CONNECTED", temperature_offset := some 1 },
         { serial_number := "TR1", device_type := "TR04", connection_state := "CONNECTED", temperature_offset := none }] ∧
    offsetEntitySerials
      [{ serial_number := "TR1", device_type := "TR04", connection_state := "CONNECTED", temperature_offset := none }] = [] :=
  ⟨offset_entities_exactly_va04_su04.1
    [{ serial_number := "VA1", device_type := "VA04", connection_state := "CONNECTED", temperature_offset := some 0 },
     { serial_number := "IB1", device_type := "IB02", connection_state := "CONNECTED", temperature_offset := none },
     { serial_number := "SU1", device_type := "SU04", connection_state := "CONNECTED", temperature_offset := some 1 },
     { serial_number := "TR1", device_type := "TR04", connection_state := "CONNECTED", temperature_offset := none }],
   offset_entities_exactly_va04_su04.2
    { serial_number := "TR1", device_type := "TR04", connection_state := "CONNECTED", temperature_offset := none }
    (by decide) (by decide)⟩

/-- C10: the offset entity is total over a missing device: when the serial
is absent from the coordinator's device dict, `available` is `False` and
`native_value` is `None`; when the device is present, `available` is `True`
exactly when its `connection_state` is `"CONNECTED"`. -/
theorem offset_entity_total_over_missing_device
    (devices : List (String × TadoXDevice)) (serial : String) :
    (devicesGet devices serial = none →
      entityAvailable devices serial = false ∧
      entityNativeValue devices serial = none) ∧
    (∀ d, devicesGet devices serial = some d →
      (entityAvailable devices serial = true ↔ d.connection_state = "CONNECTED") ∧
      entityNativeValue devices serial = d.temperature_offset) := by
  constructor
  · intro h
    simp [entityAvailable, entityNativeValue, h]
  · intro d h
    simp [entityAvailable, entityNativeValue, h]

/-- C10 witness: one connected device present; a lookup of an absent serial
and of the present serial. -/
theorem offset_entity_total_over_missing_device_witness :
    (entityAvailable
      [("VA1", { serial_number := "VA1", device_type := "VA04", connection_state := "CONNECTED", temperature_offset := some 2 })]
      "ZZ9" = false ∧
     entityNativeValue
      [("VA1", { serial_number := "VA1", device_type := "VA04", connection_state := "CONNECTED", temperature_offset := some 2 })]
      "ZZ9" = none) ∧
    (entityAvailable
      [("VA1", { serial_number := "VA1", device_type := "VA04", connection_state := "CONNECTED", temperature_offset := some 2 })]
      "VA1" = true ↔
     ({ serial_number := "VA1", device_type := "VA04", connection_state := "CONNECTED", temperature_offset := some 2 } : TadoXDevice).connection_state = "CONNECTED") :=
  ⟨(offset_entity_total_over_missing_device
      [("VA1", { serial_number := "VA1", device_type := "VA04", connection_state := "CONNECTED", temperature_offset := some 2 })]
      "ZZ9").1 rfl,
   ((offset_entity_total_over_missing_device
      [("VA1", { serial_number := "VA1", device_type := "VA04", connection_state := "CONNECTED", temperature_offset := some 2 })]
      "VA1").2
      { serial_number := "VA1", device_type := "VA04", connection_state := "CONNECTED", temperature_offset := some 2 }
      rfl).1⟩
